import Mathlib

/-!
Shallow embedding of the espmole-mqtt transport adapter
(`src/MqttTransport.cpp`, `MqttTransport.h`) in Lean 4.

Modelling conventions:
* C strings (null-terminated `char*`) are `List Char` holding the characters
  before the terminator; a null pointer is `none` of an `Option`.
* Byte buffers (`uint8_t*` with an explicit length) are `List Nat`, each
  element a byte value; the C `len` argument is the list's length.
* `uint32_t` arithmetic (the `millis()` timestamps in `poll`) is `Nat`
  reduced modulo `2 ^ 32` exactly where the C code overflows.
* Calls into the MQTT clients and into the user callback are recorded as an
  explicit list of `Effect` values returned next to the new state, so a
  theorem can say "no publish happened" by inspecting that list.
* The external command dispatcher (`Dispatcher::ingest`) is a parameter
  function from the request bytes and the response-buffer capacity to the
  response bytes it writes (its returned `respLen` is the length of that
  list, per its contract `responseLen <= capacity`, `0` = no response).
-/

namespace EspmoleMqtt

/-- Observable calls the transport makes on its collaborators: publishes and
subscribes on either MQTT client, invocations of the user callback, requests
to the command dispatcher, and TCP connect attempts. These mirror the call
sites in `MqttTransport.cpp`. `publishAsync` carries the arguments of
`AsyncMqttClient::publish(topic, qos, retain, payload, len)`;
`publishPubSub` carries the arguments of
`PubSubClient::publish(topic, payload, len, retain)` (that client has no
per-publish QoS argument). -/
inductive Effect where
  | publishAsync (topic : List Char) (payload : List Nat) (qos : Nat) (retain : Bool)
  | publishPubSub (topic : List Char) (payload : List Nat) (retain : Bool)
  | subscribeAsync (topic : List Char) (qos : Nat)
  | subscribePubSub (topic : List Char)
  | userCallback (topic : List Char) (payload : List Nat) (len : Nat)
  | dispatch (payload : List Nat) (capacity : Nat)
  | connectAttempt
  deriving DecidableEq, Repr

/-- Whether an effect is a publish on either client path. -/
def Effect.isPublish : Effect → Bool
  | .publishAsync _ _ _ _ => true
  | .publishPubSub _ _ _ => true
  | _ => false

/-- The external command dispatcher `Dispatcher::ingest`, modelled as the
response bytes it writes for a given request and response-buffer capacity. -/
def Dispatcher : Type := List Nat → Nat → List Nat

/-- The `MqttConfig` struct from `MqttTransport.h` (C++ field defaults are in
`MqttConfig.defaults` below). -/
structure MqttConfig where
  broker : Option (List Char)
  port : Nat
  username : Option (List Char)
  password : Option (List Char)
  clientId : Option (List Char)
  baseTopic : Option (List Char)
  deviceId : Option (List Char)
  enableStatus : Bool
  birthPayload : List Char
  lwtPayload : List Char
  retainStatus : Bool
  reconnectInterval : Nat
  qos : Nat

/-- The default member initializers of `MqttConfig`. -/
def MqttConfig.defaults : MqttConfig where
  broker := none
  port := 1883
  username := none
  password := none
  clientId := none
  baseTopic := some "espmole".toList
  deviceId := none
  enableStatus := true
  birthPayload := "online".toList
  lwtPayload := "offline".toList
  retainStatus := true
  reconnectInterval := 5000
  qos := 0

/-- State of an `AsyncMqttClient` instance as far as the transport configures
and queries it: its connection flag plus the settings `begin`/`attachTo`
install on it (`setServer`, `setCredentials`, `setClientId`, `setWill`). -/
structure AsyncClientState where
  isConnected : Bool
  server : Option (List Char × Nat)
  credentials : Option (List Char × Option (List Char))
  clientId : Option (List Char)
  will : Option (List Char × Nat × Bool × List Char)

/-- State of an attached `PubSubClient`: its connection flag and the boolean
results its `publish`/`subscribe` calls would return. -/
structure PubSubClientState where
  isConnected : Bool
  pubResult : Bool
  subResult : Bool
  deriving DecidableEq, Repr

/-- Buffer-size constant `TOPIC_MAX_LEN` from `MqttTransport.h`. -/
def TOPIC_MAX_LEN : Nat := 80

/-- Buffer-size constant `DEVICE_ID_MAX_LEN` from `MqttTransport.h`. -/
def DEVICE_ID_MAX_LEN : Nat := 32

/-- Buffer-size constant `RESPONSE_BUFFER_SIZE` from `MqttTransport.h`. -/
def RESPONSE_BUFFER_SIZE : Nat := 256

/-- The private state of a `MqttTransport` object. `userCallbackSet` models
whether `userCallback_` holds a callable (its body lives outside the adapter;
its invocations are recorded as `Effect.userCallback`). -/
structure MqttTransportState where
  dispatcher : Option Dispatcher
  config : MqttConfig
  standaloneMode : Bool
  cmdTopic : List Char
  respTopic : List Char
  statusTopic : List Char
  eventTopic : List Char
  deviceId : List Char
  asyncClient : Option AsyncClientState
  pubSubClient : Option PubSubClientState
  ownsClient : Bool
  userCallbackSet : Bool
  wasConnected : Bool
  lastReconnectAttempt : Nat

/-- Integration-mode constructor `MqttTransport(Dispatcher*)`: default config,
zeroed topic buffers, no client. -/
def mkIntegration (d : Option Dispatcher) : MqttTransportState where
  dispatcher := d
  config := MqttConfig.defaults
  standaloneMode := false
  cmdTopic := []
  respTopic := []
  statusTopic := []
  eventTopic := []
  deviceId := []
  asyncClient := none
  pubSubClient := none
  ownsClient := false
  userCallbackSet := false
  wasConnected := false
  lastReconnectAttempt := 0

/-- Standalone-mode constructor `MqttTransport(Dispatcher*, const MqttConfig&)`. -/
def mkStandalone (d : Option Dispatcher) (cfg : MqttConfig) : MqttTransportState :=
  { mkIntegration d with config := cfg, standaloneMode := true }

/-- Uppercase hexadecimal digit, as produced by the `%02X` format. -/
def hexDigit (n : Nat) : Char :=
  if n < 10 then Char.ofNat (48 + n) else Char.ofNat (55 + n)

/-- Two-digit uppercase hex rendering of one byte (`%02X`). -/
def byteHex (b : Nat) : List Char :=
  [hexDigit (b / 16 % 16), hexDigit (b % 16)]

/-- MqttTransport::buildDeviceId : copy `config.deviceId` truncated by
`strncpy(_, _, DEVICE_ID_MAX_LEN - 1)`, or render the 6 MAC bytes from the
external identity source as uppercase hex via
`snprintf(_, DEVICE_ID_MAX_LEN, "%02X%02X%02X%02X%02X%02X", ...)`. -/
def buildDeviceId (cfg : MqttConfig) (mac : List Nat) : List Char :=
  match cfg.deviceId with
  | some d => d.take (DEVICE_ID_MAX_LEN - 1)
  | none => ((mac.take 6).map byteHex).flatten.take (DEVICE_ID_MAX_LEN - 1)

/-- The base topic actually used: `config_.baseTopic ? config_.baseTopic :
"espmole"` (both `buildTopics` and `isMoleTopic` compute this). -/
def effectiveBase (cfg : MqttConfig) : List Char :=
  cfg.baseTopic.getD "espmole".toList

/-- One `snprintf(buf, TOPIC_MAX_LEN, "%s/%s/<suffix>", base, deviceId)`:
plain concatenation truncated to `TOPIC_MAX_LEN - 1` characters. -/
def fmtTopic (base dev suffix : List Char) : List Char :=
  (base ++ '/' :: dev ++ '/' :: suffix).take (TOPIC_MAX_LEN - 1)

/-- MqttTransport::buildTopics : rebuild the device id and the four topic
strings from the configuration (and the MAC bytes when no explicit id). -/
def buildTopics (s : MqttTransportState) (mac : List Nat) : MqttTransportState :=
  let dev := buildDeviceId s.config mac
  let base := effectiveBase s.config
  { s with
    deviceId := dev
    cmdTopic := fmtTopic base dev "cmd".toList
    respTopic := fmtTopic base dev "resp".toList
    statusTopic := fmtTopic base dev "status".toList
    eventTopic := fmtTopic base dev "event".toList }

/-- MqttTransport::isMoleTopic : `strncmp(topic, base, strlen(base)) == 0 &&
topic[strlen(base)] == '/'`. On null-free strings the `strncmp` is a prefix
test; indexing at `strlen(base)` reads past the end (the terminator) exactly
when the topic is no longer than the base, in which case `getElem?` is `none`
and the comparison with `'/'` fails, as in C. -/
def isMoleTopic (s : MqttTransportState) (topic : List Char) : Bool :=
  let base := effectiveBase s.config
  base.isPrefixOf topic && topic[base.length]? == some '/'

/-- MqttTransport::mqttPublish : publish through the async client if present
and connected, else through the PubSubClient if present and connected, else
fail with no effect. -/
def mqttPublish (s : MqttTransportState) (topic : List Char) (payload : List Nat)
    (qos : Nat) (retain : Bool) : Bool × List Effect :=
  match s.asyncClient with
  | some c =>
    if c.isConnected then (true, [.publishAsync topic payload qos retain])
    else match s.pubSubClient with
      | some p =>
        if p.isConnected then (p.pubResult, [.publishPubSub topic payload retain])
        else (false, [])
      | none => (false, [])
  | none =>
    match s.pubSubClient with
    | some p =>
      if p.isConnected then (p.pubResult, [.publishPubSub topic payload retain])
      else (false, [])
    | none => (false, [])

/-- MqttTransport::processCommand : if a dispatcher is set, hand it the
payload and a `RESPONSE_BUFFER_SIZE`-byte response buffer; when it reports a
non-zero response length, publish the response to the response topic at the
configured QoS, non-retained. -/
def processCommand (s : MqttTransportState) (payload : List Nat) : List Effect :=
  match s.dispatcher with
  | none => []
  | some d =>
    let response := d payload RESPONSE_BUFFER_SIZE
    .dispatch payload RESPONSE_BUFFER_SIZE ::
      (if response.length > 0 then
        (mqttPublish s s.respTopic response s.config.qos false).2
      else [])

/-- MqttTransport::handleMessage : exact `strcmp` against the command topic;
non-command mole topics are absorbed; foreign topics go to the user callback
when set. Returns `handled` plus the collaborator calls made. -/
def handleMessage (s : MqttTransportState) (topic : List Char) (payload : List Nat) :
    Bool × List Effect :=
  if topic ≠ s.cmdTopic then
    if isMoleTopic s topic then (true, [])
    else (false, if s.userCallbackSet then [.userCallback topic payload payload.length] else [])
  else
    (true, processCommand s payload)

/-- Bytes of a C string, as `reinterpret_cast<const uint8_t*>` exposes them
to a publish call. -/
def strBytes (cs : List Char) : List Nat :=
  cs.map Char.toNat

/-- MqttTransport::connected : async client's flag if one is set, else the
PubSubClient's, else false. -/
def connected (s : MqttTransportState) : Bool :=
  match s.asyncClient with
  | some c => c.isConnected
  | none =>
    match s.pubSubClient with
    | some p => p.isConnected
    | none => false

/-- MqttTransport::subscribeToCommandTopic : subscribe the command topic on
the async client (at the configured QoS) if present, else on the
PubSubClient (whose `subscribe(topic)` has no QoS argument). Note no
connectedness check here, unlike the public `subscribe`. -/
def subscribeToCommandTopic (s : MqttTransportState) : List Effect :=
  match s.asyncClient with
  | some _ => [.subscribeAsync s.cmdTopic s.config.qos]
  | none =>
    match s.pubSubClient with
    | some _ => [.subscribePubSub s.cmdTopic]
    | none => []

/-- MqttTransport::publishBirth : when status is enabled, publish the birth
payload to the status topic at QoS 1 with the configured retain flag. -/
def publishBirth (s : MqttTransportState) : List Effect :=
  if s.config.enableStatus then
    (mqttPublish s s.statusTopic (strBytes s.config.birthPayload) 1 s.config.retainStatus).2
  else []

/-- MqttTransport::begin (standalone activation): force standalone mode,
build the topics, bail out silently when no broker is configured; otherwise
create and configure an owned `AsyncMqttClient` (server, optional
credentials, client id defaulting to the device id, last will on the status
topic when status is enabled) and issue the initial connect. The `mac`
argument is the external identity source read by `buildDeviceId`. -/
def begin (s : MqttTransportState) (mac : List Nat) : MqttTransportState × List Effect :=
  let s := { s with standaloneMode := true }
  let s := buildTopics s mac
  match s.config.broker with
  | none => (s, [])
  | some b =>
    let client : AsyncClientState :=
      { isConnected := false
        server := some (b, s.config.port)
        credentials :=
          match s.config.username with
          | some u => some (u, s.config.password)
          | none => none
        clientId := some (s.config.clientId.getD s.deviceId)
        will :=
          if s.config.enableStatus then
            some (s.statusTopic, 1, s.config.retainStatus, s.config.lwtPayload)
          else none }
    ({ s with asyncClient := some client, ownsClient := true }, [.connectAttempt])

/-- Modulus of `uint32_t` arithmetic. -/
def UINT32 : Nat := 4294967296

/-- Wraparound-safe `uint32_t` subtraction `a - b` as the C expression
`now - lastReconnectAttempt_` computes it. -/
def sub32 (a b : Nat) : Nat :=
  (a % UINT32 + UINT32 - b % UINT32) % UINT32

/-- MqttTransport::poll : no-op unless in standalone mode with a client;
while disconnected, clear `wasConnected_` and, when at least the configured
reconnect interval has elapsed since the last attempt (uint32 wraparound
subtraction), stamp the attempt time and reconnect. `now` is the `millis()`
reading. -/
def poll (s : MqttTransportState) (now : Nat) : MqttTransportState × List Effect :=
  match s.asyncClient with
  | none => (s, [])
  | some c =>
    if ¬ s.standaloneMode then (s, [])
    else
      let isConnected := c.isConnected
      let s := if ¬ isConnected ∧ s.wasConnected then { s with wasConnected := false } else s
      if ¬ isConnected then
        if sub32 now s.lastReconnectAttempt ≥ s.config.reconnectInterval then
          ({ s with lastReconnectAttempt := now % UINT32 }, [.connectAttempt])
        else (s, [])
      else (s, [])

/-- MqttTransport::onAsyncConnect : mark connected, re-subscribe the command
topic, publish the birth message. -/
def onAsyncConnect (s : MqttTransportState) : MqttTransportState × List Effect :=
  let s := { s with wasConnected := true }
  (s, subscribeToCommandTopic s ++ publishBirth s)

/-- MqttTransport::onAsyncDisconnect : just clear `wasConnected_`; no
reconnect logic runs here. -/
def onAsyncDisconnect (s : MqttTransportState) : MqttTransportState :=
  { s with wasConnected := false }

/-- MqttTransport::onAsyncMessage : drop fragmented chunks (non-zero start
offset, or chunk length differing from the advertised total) without any
further processing; otherwise hand the complete message to `handleMessage`.
`none` is the dropped case: `handleMessage` (and with it the classifier, the
dispatcher, and any publish) is never reached. `len` is the chunk length the
client reports; `payload` holds that chunk's bytes. -/
def onAsyncMessage (s : MqttTransportState) (topic : List Char) (payload : List Nat)
    (len index total : Nat) : Option (Bool × List Effect) :=
  if index ≠ 0 ∨ len ≠ total then none
  else some (handleMessage s topic payload)

/-- The owned async client delivering its connect event: only a transport
that actually holds a client can ever have `onAsyncConnect` fire. -/
def deliverConnectEvent (s : MqttTransportState) :
    Option (MqttTransportState × List Effect) :=
  match s.asyncClient with
  | none => none
  | some c =>
    some (onAsyncConnect { s with asyncClient := some { c with isConnected := true } })

/-- MqttTransport::attachTo(AsyncMqttClient*) (integration activation): store
the non-owned client, leave standalone mode, build the topics, and
pre-register the last will on the client when status is enabled. -/
def attachTo (s : MqttTransportState) (client : AsyncClientState) :
    MqttTransportState :=
  let s := { s with asyncClient := some client, ownsClient := false, standaloneMode := false }
  let s := buildTopics s []
  if s.config.enableStatus then
    { s with
      asyncClient := some { client with
        will := some (s.statusTopic, 1, s.config.retainStatus, s.config.lwtPayload) } }
  else s

/-- MqttTransport::attachTo(PubSubClient*) (integration activation, compiled
when PubSubClient is available): store the non-owned client, leave
standalone mode, build topics, then subscribe and publish birth
immediately. -/
def attachToPubSub (s : MqttTransportState) (client : PubSubClientState) :
    MqttTransportState × List Effect :=
  let s := { s with pubSubClient := some client, ownsClient := false, standaloneMode := false }
  let s := buildTopics s []
  (s, subscribeToCommandTopic s ++ publishBirth s)

/-- MqttTransport::onMqttConnect (integration mode, called by the host from
its own connect callback): subscribe and publish birth. -/
def onMqttConnect (s : MqttTransportState) : List Effect :=
  subscribeToCommandTopic s ++ publishBirth s

/-- MqttTransport::send : always publishes to the response topic at the
configured QoS, non-retained; the `peer` argument is discarded by
`(void)peer`. -/
def send (s : MqttTransportState) (peer : Nat) (data : List Nat) : Bool × List Effect :=
  mqttPublish s s.respTopic data s.config.qos false

/-- MqttTransport::broadcast : always publishes to the event topic at the
configured QoS, non-retained. -/
def broadcast (s : MqttTransportState) (data : List Nat) : Bool × List Effect :=
  mqttPublish s s.eventTopic data s.config.qos false

/-- MqttTransport::subscribe (public): subscribe on the async client when it
is present and connected, else on the PubSubClient when present and
connected (its own boolean result is returned), else fail. -/
def subscribe (s : MqttTransportState) (topic : List Char) (qos : Nat) :
    Bool × List Effect :=
  match s.asyncClient with
  | some c =>
    if c.isConnected then (true, [.subscribeAsync topic qos])
    else match s.pubSubClient with
      | some p =>
        if p.isConnected then (p.subResult, [.subscribePubSub topic])
        else (false, [])
      | none => (false, [])
  | none =>
    match s.pubSubClient with
    | some p =>
      if p.isConnected then (p.subResult, [.subscribePubSub topic])
      else (false, [])
    | none => (false, [])

/-- MqttTransport::publish (public): delegate to `mqttPublish` verbatim. -/
def publish (s : MqttTransportState) (topic : List Char) (payload : List Nat)
    (qos : Nat) (retain : Bool) : Bool × List Effect :=
  mqttPublish s topic payload qos retain

/-- The three-way classification `handleMessage` implements (spec section
4.2): own command topic, other topic in the own namespace, foreign. -/
inductive MsgClass where
  | OwnCommand
  | OwnOther
  | Foreign
  deriving DecidableEq, Repr

/-- The classification decision of `handleMessage`, read off its branches:
`strcmp(topic, cmdTopic_) == 0` gives `OwnCommand`, else `isMoleTopic` gives
`OwnOther`, else `Foreign`. -/
def classify (s : MqttTransportState) (topic : List Char) : MsgClass :=
  if topic = s.cmdTopic then .OwnCommand
  else if isMoleTopic s topic then .OwnOther
  else .Foreign

/-! Theorems. -/

/-- Spec-side predicate (spec 4.2): the topic begins with the base prefix
immediately followed by the `'/'` separator. -/
def beginsWithBaseSlash (base topic : List Char) : Prop :=
  ∃ rest, topic = base ++ '/' :: rest

/-- The C prefix test of `isMoleTopic` coincides with the spec-side
"base immediately followed by the separator" predicate. -/
theorem isMoleTopic_iff (s : MqttTransportState) (topic : List Char) :
    isMoleTopic s topic = true ↔ beginsWithBaseSlash (effectiveBase s.config) topic := by
  unfold isMoleTopic beginsWithBaseSlash
  simp only [Bool.and_eq_true, List.isPrefixOf_iff_prefix, beq_iff_eq]
  constructor
  · rintro ⟨⟨t, rfl⟩, h2⟩
    rw [List.getElem?_append_right (le_refl _)] at h2
    simp only [Nat.sub_self] at h2
    cases t with
    | nil => simp at h2
    | cons a t =>
      simp only [List.getElem?_cons_zero, Option.some.injEq] at h2
      exact ⟨t, by simp [h2]⟩
  · rintro ⟨rest, rfl⟩
    refine ⟨⟨'/' :: rest, rfl⟩, ?_⟩
    rw [List.getElem?_append_right (le_refl _)]
    simp

/-- A sample configuration: explicit device id `dev`, default base. -/
def sampleConfig : MqttConfig :=
  { MqttConfig.defaults with deviceId := some "dev".toList }

/-- A sample transport state with its namespace built
(`espmole/dev/cmd` etc.) and the user callback registered. -/
def sampleState : MqttTransportState :=
  { buildTopics (mkStandalone none sampleConfig) [] with userCallbackSet := true }

/-- C1: `handleMessage` classifies every inbound topic exactly one of three
ways — `OwnCommand` iff the topic equals the command topic character for
character, `OwnOther` iff it begins with the base prefix immediately
followed by `'/'` but is not the command topic, `Foreign` otherwise; a topic
equal to the base itself (no trailing separator) is `Foreign`; and
`handleMessage` reports `handled` exactly on the non-`Foreign` classes. The
hypothesis states that the command topic lies inside the namespace, which
`buildTopics` guarantees whenever the configured lengths fit the topic
buffer. -/
theorem classify_trichotomy (s : MqttTransportState) (tail : List Char)
    (hcmd : s.cmdTopic = effectiveBase s.config ++ '/' :: tail) :
    (∀ topic payload,
      (classify s topic = MsgClass.OwnCommand ↔ topic = s.cmdTopic)
      ∧ (classify s topic = MsgClass.OwnOther ↔
          (beginsWithBaseSlash (effectiveBase s.config) topic ∧ topic ≠ s.cmdTopic))
      ∧ (classify s topic = MsgClass.Foreign ↔
          (¬ beginsWithBaseSlash (effectiveBase s.config) topic ∧ topic ≠ s.cmdTopic))
      ∧ ((handleMessage s topic payload).1 = true ↔ classify s topic ≠ MsgClass.Foreign))
    ∧ classify s (effectiveBase s.config) = MsgClass.Foreign := by
  have hbase_ne : effectiveBase s.config ≠ s.cmdTopic := by
    rw [hcmd]
    intro h
    have := congrArg List.length h
    simp at this
  have hbase_nb : ¬ beginsWithBaseSlash (effectiveBase s.config) (effectiveBase s.config) := by
    rintro ⟨rest, h⟩
    have := congrArg List.length h
    simp at this
  constructor
  · intro topic payload
    by_cases h1 : topic = s.cmdTopic
    · simp [classify, handleMessage, h1]
    · by_cases h2 : isMoleTopic s topic
      · have hb := (isMoleTopic_iff s topic).mp h2
        simp [classify, handleMessage, h1, h2, hb]
      · have hb : ¬ beginsWithBaseSlash (effectiveBase s.config) topic := by
          intro hb
          exact h2 ((isMoleTopic_iff s topic).mpr hb)
        simp [classify, handleMessage, h1, h2, hb]
  · have h2 : ¬ isMoleTopic s (effectiveBase s.config) := by
      intro h
      exact hbase_nb ((isMoleTopic_iff s _).mp h)
    simp [classify, hbase_ne, h2]

/-- C1 witness: on the built namespace `espmole/dev/...`, the base topic
`espmole` alone classifies `Foreign` and the command topic classifies
`OwnCommand`. -/
theorem classify_trichotomy_witness :
    classify sampleState "espmole".toList = MsgClass.Foreign
    ∧ classify sampleState "espmole/dev/cmd".toList = MsgClass.OwnCommand := by
  have h := classify_trichotomy sampleState "dev/cmd".toList (by decide)
  exact ⟨h.2, ((h.1 "espmole/dev/cmd".toList []).1).mpr (by decide)⟩

/-- A dispatcher producing the one-byte response `[65]` for every request. -/
def c2Dispatcher : Dispatcher := fun _ _ => [65]

/-- An async client that is currently connected. -/
def c2Client : AsyncClientState :=
  { isConnected := true, server := none, credentials := none, clientId := none, will := none }

/-- The sample transport with a dispatcher and a connected async client. -/
def c2State : MqttTransportState :=
  { sampleState with dispatcher := some c2Dispatcher, asyncClient := some c2Client }

/-- C2: a message on the own command topic is always `handled = true`; the
payload goes to the dispatcher with the fixed `RESPONSE_BUFFER_SIZE`
capacity, and exactly the dispatcher's response is published to the response
topic at the configured QoS, non-retained, when its length is non-zero —
with no publish at all when it is zero. -/
theorem command_bridge_spec (s : MqttTransportState) (d : Dispatcher)
    (c : AsyncClientState) (payload : List Nat)
    (hd : s.dispatcher = some d) (hc : s.asyncClient = some c)
    (hconn : c.isConnected = true) :
    (handleMessage s s.cmdTopic payload).1 = true
    ∧ (handleMessage s s.cmdTopic payload).2 =
        Effect.dispatch payload RESPONSE_BUFFER_SIZE ::
          (if (d payload RESPONSE_BUFFER_SIZE).length > 0 then
            [Effect.publishAsync s.respTopic (d payload RESPONSE_BUFFER_SIZE)
              s.config.qos false]
          else []) := by
  constructor
  · simp [handleMessage]
  · simp [handleMessage, processCommand, mqttPublish, hd, hc, hconn]

/-- C2 witness: on the sample state, the command payload `[1, 2]` is handled
and the dispatcher's response `[65]` is published to the response topic. -/
theorem command_bridge_spec_witness :
    (handleMessage c2State c2State.cmdTopic [1, 2]).1 = true
    ∧ (handleMessage c2State c2State.cmdTopic [1, 2]).2 =
        [Effect.dispatch [1, 2] 256,
         Effect.publishAsync c2State.respTopic [65] c2State.config.qos false] := by
  have h := command_bridge_spec c2State c2Dispatcher c2Client [1, 2] rfl rfl rfl
  simpa [c2Dispatcher, RESPONSE_BUFFER_SIZE] using h

/-- Configuration with the spec's example device id `test123`. -/
def c3Config : MqttConfig :=
  { MqttConfig.defaults with deviceId := some "test123".toList }

/-- Transport constructed on `c3Config`, namespace not yet built. -/
def c3State : MqttTransportState := mkStandalone none c3Config

/-- C3: within the length limits (explicit device id below
`DEVICE_ID_MAX_LEN`, formatted topics below `TOPIC_MAX_LEN`), `buildTopics`
produces exactly the four topics `{base}/{deviceId}/cmd|resp|status|event`,
and two states sharing the configuration get identical topic strings, so
repeated calls with identical inputs are idempotent. -/
theorem buildTopics_exact (cfg : MqttConfig) (dev : List Char) (mac : List Nat)
    (s t : MqttTransportState)
    (hdev : cfg.deviceId = some dev)
    (hdevlen : dev.length ≤ DEVICE_ID_MAX_LEN - 1)
    (hlen : (effectiveBase cfg).length + dev.length + 8 ≤ TOPIC_MAX_LEN - 1)
    (hs : s.config = cfg) (ht : t.config = cfg) :
    ((buildTopics s mac).cmdTopic
        = effectiveBase cfg ++ '/' :: dev ++ '/' :: "cmd".toList
      ∧ (buildTopics s mac).respTopic
        = effectiveBase cfg ++ '/' :: dev ++ '/' :: "resp".toList
      ∧ (buildTopics s mac).statusTopic
        = effectiveBase cfg ++ '/' :: dev ++ '/' :: "status".toList
      ∧ (buildTopics s mac).eventTopic
        = effectiveBase cfg ++ '/' :: dev ++ '/' :: "event".toList)
    ∧ ((buildTopics s mac).cmdTopic = (buildTopics t mac).cmdTopic
      ∧ (buildTopics s mac).respTopic = (buildTopics t mac).respTopic
      ∧ (buildTopics s mac).statusTopic = (buildTopics t mac).statusTopic
      ∧ (buildTopics s mac).eventTopic = (buildTopics t mac).eventTopic) := by
  have hlen79 : (effectiveBase cfg).length + dev.length + 8 ≤ 79 := by
    simpa [TOPIC_MAX_LEN] using hlen
  have hdev' : buildDeviceId cfg mac = dev := by
    simp [buildDeviceId, hdev, List.take_of_length_le hdevlen]
  have hfmt : ∀ suffix : List Char, suffix.length ≤ 6 →
      fmtTopic (effectiveBase cfg) dev suffix
        = effectiveBase cfg ++ '/' :: dev ++ '/' :: suffix := by
    intro suffix hsuf
    unfold fmtTopic TOPIC_MAX_LEN
    apply List.take_of_length_le
    simp only [List.length_append, List.length_cons]
    omega
  have hfc := hfmt ['c', 'm', 'd'] (by decide)
  have hfr := hfmt ['r', 'e', 's', 'p'] (by decide)
  have hfs := hfmt ['s', 't', 'a', 't', 'u', 's'] (by decide)
  have hfe := hfmt ['e', 'v', 'e', 'n', 't'] (by decide)
  refine ⟨⟨?_, ?_, ?_, ?_⟩, ?_, ?_, ?_, ?_⟩ <;>
    simp [buildTopics, hs, ht, hdev', hfc, hfr, hfs, hfe]

/-- C3 witness: the spec's example `base = espmole`, `deviceId = test123`
yields exactly `espmole/test123/cmd` and friends. -/
theorem buildTopics_exact_witness :
    (buildTopics c3State []).cmdTopic = "espmole/test123/cmd".toList
    ∧ (buildTopics c3State []).respTopic = "espmole/test123/resp".toList
    ∧ (buildTopics c3State []).statusTopic = "espmole/test123/status".toList
    ∧ (buildTopics c3State []).eventTopic = "espmole/test123/event".toList := by
  have h := buildTopics_exact c3Config "test123".toList [] c3State c3State rfl
    (by decide) (by decide) rfl rfl
  obtain ⟨⟨h1, h2, h3, h4⟩, -⟩ := h
  exact ⟨h1.trans (by decide), h2.trans (by decide), h3.trans (by decide),
    h4.trans (by decide)⟩

/-- C4: on a foreign topic, `handleMessage` calls the user callback (when
registered) with the original topic, payload and length, returns
`handled = false`, and emits no publish; on an own-namespace non-command
topic it returns `handled = true` with no effects; in both cases nothing is
published. -/
theorem foreign_ownOther_frame (s : MqttTransportState) (topic : List Char)
    (payload : List Nat) (hne : topic ≠ s.cmdTopic) :
    (isMoleTopic s topic = false →
      handleMessage s topic payload
        = (false, if s.userCallbackSet then
            [Effect.userCallback topic payload payload.length] else []))
    ∧ (isMoleTopic s topic = true → handleMessage s topic payload = (true, []))
    ∧ (∀ e ∈ (handleMessage s topic payload).2, e.isPublish = false) := by
  refine ⟨?_, ?_, ?_⟩
  · intro hm; simp [handleMessage, hne, hm]
  · intro hm; simp [handleMessage, hne, hm]
  · intro e he
    by_cases hm : isMoleTopic s topic
    · simp [handleMessage, hne, hm] at he
    · by_cases hu : s.userCallbackSet
      · simp [handleMessage, hne, hm, hu] at he
        simp [he, Effect.isPublish]
      · simp [handleMessage, hne, hm, hu] at he

/-- C4 witness: on the sample state (user callback registered), the foreign
topic `home/x` is forwarded verbatim and unhandled, and the own-namespace
topic `espmole/other` is absorbed as handled with no effects. -/
theorem foreign_ownOther_frame_witness :
    handleMessage sampleState "home/x".toList [7]
      = (false, [Effect.userCallback "home/x".toList [7] 1])
    ∧ handleMessage sampleState "espmole/other".toList [7] = (true, []) := by
  have h1 := foreign_ownOther_frame sampleState "home/x".toList [7] (by decide)
  have h2 := foreign_ownOther_frame sampleState "espmole/other".toList [7] (by decide)
  have hu : sampleState.userCallbackSet = true := by decide
  refine ⟨?_, h2.2.1 (by decide)⟩
  have := h1.1 (by decide)
  simpa [hu] using this

/-- Helper: characterization of one `poll` step while disconnected in
standalone mode — a reconnect attempt happens exactly when at least the
configured interval has elapsed (uint32 wraparound subtraction) since the
last attempt, and then the attempt timestamp is updated to `now`. -/
theorem poll_disconnected_effects (s : MqttTransportState) (c : AsyncClientState)
    (now : Nat) (hc : s.asyncClient = some c) (hconn : c.isConnected = false)
    (hmode : s.standaloneMode = true) :
    ((poll s now).2 =
      if sub32 now s.lastReconnectAttempt ≥ s.config.reconnectInterval then
        [Effect.connectAttempt] else [])
    ∧ (poll s now).1.asyncClient = s.asyncClient
    ∧ (poll s now).1.standaloneMode = s.standaloneMode
    ∧ (poll s now).1.config = s.config
    ∧ (poll s now).1.lastReconnectAttempt =
        (if sub32 now s.lastReconnectAttempt ≥ s.config.reconnectInterval then
          now % UINT32 else s.lastReconnectAttempt) := by
  unfold poll
  rw [hc]
  simp only [hmode, hconn]
  by_cases hw : s.wasConnected <;>
    by_cases hi : sub32 now s.lastReconnectAttempt ≥ s.config.reconnectInterval <;>
      simp [hw, hi, hc, hmode]

/-- Reducing the stored timestamp modulo `2 ^ 32` does not change later
elapsed-time computations. -/
theorem sub32_mod_right (a b : Nat) : sub32 a (b % UINT32) = sub32 a b := by
  unfold sub32 UINT32
  omega

/-- C5: in standalone mode, over any two consecutive `poll` calls while
disconnected that are less than the reconnect interval apart (uint32
wraparound-safe elapsed time), at most one reconnect attempt is issued: an
attempt stamps the last-attempt time, so the second poll's elapsed time is
below the interval. -/
theorem poll_reconnect_throttle (s : MqttTransportState) (c : AsyncClientState)
    (n₁ n₂ : Nat)
    (hc : s.asyncClient = some c) (hconn : c.isConnected = false)
    (hmode : s.standaloneMode = true)
    (hgap : sub32 n₂ n₁ < s.config.reconnectInterval) :
    ((poll s n₁).2 ++ (poll (poll s n₁).1 n₂).2).count Effect.connectAttempt ≤ 1 := by
  obtain ⟨he1, hac1, hmode1, hcfg1, hlast1⟩ := poll_disconnected_effects s c n₁ hc hconn hmode
  obtain ⟨he2, -, -, -, -⟩ := poll_disconnected_effects (poll s n₁).1 c n₂
    (by rw [hac1, hc]) hconn (by rw [hmode1, hmode])
  by_cases hi : sub32 n₁ s.lastReconnectAttempt ≥ s.config.reconnectInterval
  · rw [he1, if_pos hi, he2, hlast1, if_pos hi, hcfg1, sub32_mod_right]
    rw [if_neg (by omega)]
    decide
  · rw [he1, if_neg hi, he2, hlast1, if_neg hi, hcfg1]
    by_cases hi2 : sub32 n₂ s.lastReconnectAttempt ≥ s.config.reconnectInterval
    · rw [if_pos hi2]; decide
    · rw [if_neg hi2]; decide

/-- A disconnected async client for the poll witness. -/
def c5Client : AsyncClientState :=
  { isConnected := false, server := none, credentials := none, clientId := none, will := none }

/-- Sample standalone state holding the disconnected client. -/
def c5State : MqttTransportState :=
  { sampleState with asyncClient := some c5Client }

/-- C5 witness: polls at `millis` readings 10000 and 10100 (gap 100 ms,
interval 5000 ms) issue at most one reconnect attempt. -/
theorem poll_reconnect_throttle_witness :
    ((poll c5State 10000).2 ++ (poll (poll c5State 10000).1 10100).2).count
      Effect.connectAttempt ≤ 1 :=
  poll_reconnect_throttle c5State c5Client 10000 10100 rfl rfl rfl (by decide)

/-- C6: every inbound chunk whose start offset is non-zero or whose chunk
length differs from the advertised total is dropped unconditionally —
`onAsyncMessage` yields `none`, so `handleMessage` (classifier, dispatcher,
response publish) is never invoked and no error is surfaced. -/
theorem fragmented_dropped (s : MqttTransportState) (topic : List Char)
    (payload : List Nat) (len index total : Nat)
    (h : index ≠ 0 ∨ len ≠ total) :
    onAsyncMessage s topic payload len index total = none := by
  unfold onAsyncMessage
  rw [if_pos h]

/-- C6 witness: a chunk with start offset 1 is dropped. -/
theorem fragmented_dropped_witness :
    onAsyncMessage sampleState "espmole/dev/cmd".toList [1] 1 1 2 = none :=
  fragmented_dropped sampleState "espmole/dev/cmd".toList [1] 1 1 2
    (Or.inl (by decide))

/-- Configuration for the mode-switch counterexample: a broker is present so
`begin` fully activates standalone mode. -/
def c7Config : MqttConfig :=
  { MqttConfig.defaults with broker := some "b".toList, deviceId := some "dev".toList }

/-- An external async client to attach to. -/
def c7Client : AsyncClientState :=
  { isConnected := false, server := none, credentials := none, clientId := none, will := none }

/-- C7 counterexample: the claim says the mode and ownership fixed by one
activation cannot change for the adapter's lifetime, but after `begin`
activates standalone mode (`standaloneMode_ = true`, `ownsClient_ = true`) a
subsequent `attachTo` switches both flags to integration mode — nothing in
the code guards against a second activation. -/
theorem mode_switch_counterexample :
    ((begin (mkStandalone none c7Config) []).1.standaloneMode = true
      ∧ (begin (mkStandalone none c7Config) []).1.ownsClient = true)
    ∧ ((attachTo (begin (mkStandalone none c7Config) []).1 c7Client).standaloneMode = false
      ∧ (attachTo (begin (mkStandalone none c7Config) []).1 c7Client).ownsClient = false) := by
  refine ⟨⟨rfl, rfl⟩, rfl, rfl⟩

/-- C7 amended: each activation call sets the mode unconditionally — `begin`
enters standalone mode and `attachTo` enters integration mode with a
non-owned client — so the operating mode is that of the most recent
activation; the non-activation operations (`poll` and the async
connect/disconnect events) never change the mode or ownership flags, but a
later activation call does switch them. -/
theorem mode_last_activation (s : MqttTransportState) (mac : List Nat)
    (c : AsyncClientState) (p : PubSubClientState) (n : Nat) :
    ((begin s mac).1.standaloneMode = true)
    ∧ ((attachTo s c).standaloneMode = false ∧ (attachTo s c).ownsClient = false)
    ∧ ((attachToPubSub s p).1.standaloneMode = false
      ∧ (attachToPubSub s p).1.ownsClient = false)
    ∧ ((poll s n).1.standaloneMode = s.standaloneMode
      ∧ (poll s n).1.ownsClient = s.ownsClient)
    ∧ ((onAsyncConnect s).1.standaloneMode = s.standaloneMode
      ∧ (onAsyncConnect s).1.ownsClient = s.ownsClient)
    ∧ ((onAsyncDisconnect s).standaloneMode = s.standaloneMode
      ∧ (onAsyncDisconnect s).ownsClient = s.ownsClient) := by
  refine ⟨?_, ⟨?_, ?_⟩, ⟨?_, ?_⟩, ⟨?_, ?_⟩, ⟨rfl, rfl⟩, rfl, rfl⟩
  · unfold begin buildTopics
    cases hb : s.config.broker <;> simp [hb]
  · simp [attachTo, buildTopics]
    split <;> rfl
  · simp [attachTo, buildTopics]
    split <;> rfl
  · rfl
  · rfl
  · unfold poll
    cases hac : s.asyncClient with
    | none => rfl
    | some c' =>
      by_cases hm : s.standaloneMode <;>
        by_cases hcc : c'.isConnected <;>
          by_cases hw : s.wasConnected <;>
            by_cases hi : sub32 n s.lastReconnectAttempt ≥ s.config.reconnectInterval <;>
              simp [hm, hcc, hw, hi]
  · unfold poll
    cases hac : s.asyncClient with
    | none => rfl
    | some c' =>
      by_cases hm : s.standaloneMode <;>
        by_cases hcc : c'.isConnected <;>
          by_cases hw : s.wasConnected <;>
            by_cases hi : sub32 n s.lastReconnectAttempt ≥ s.config.reconnectInterval <;>
              simp [hm, hcc, hw, hi]

/-- C8: in standalone mode with no broker configured, `begin` silently
disables activation: it emits no effects (in particular no connect attempt),
creates no client, and with no client present the connect event can never be
delivered; the call plainly returns. -/
theorem begin_no_broker (s : MqttTransportState) (mac : List Nat)
    (hb : s.config.broker = none) (ha : s.asyncClient = none) :
    (begin s mac).2 = []
    ∧ (begin s mac).1.asyncClient = none
    ∧ deliverConnectEvent (begin s mac).1 = none := by
  unfold begin deliverConnectEvent
  simp [buildTopics, hb, ha]

/-- C8 witness: default configuration (no broker), fresh integration-mode
constructed object promoted by `begin`. -/
theorem begin_no_broker_witness :
    (begin (mkStandalone none MqttConfig.defaults) []).2 = []
    ∧ (begin (mkStandalone none MqttConfig.defaults) []).1.asyncClient = none
    ∧ deliverConnectEvent (begin (mkStandalone none MqttConfig.defaults) []).1 = none :=
  begin_no_broker (mkStandalone none MqttConfig.defaults) [] rfl rfl

/-- C9: `send` discards its `peer` argument — two calls differing only in
the peer are identical in result and effects — and it always requests a
publish of the data to the response topic at the configured QoS,
non-retained; with a connected async client that is exactly the one publish
performed. -/
theorem send_ignores_peer (s : MqttTransportState) (p₁ p₂ : Nat) (data : List Nat) :
    send s p₁ data = send s p₂ data
    ∧ send s p₁ data = mqttPublish s s.respTopic data s.config.qos false
    ∧ ∀ c, s.asyncClient = some c → c.isConnected = true →
        send s p₁ data
          = (true, [Effect.publishAsync s.respTopic data s.config.qos false]) := by
  refine ⟨rfl, rfl, ?_⟩
  intro c hc hcc
  simp [send, mqttPublish, hc, hcc]

/-- C9 witness: on the connected sample state, peers 5 and 77 produce the
same single publish to the response topic. -/
theorem send_ignores_peer_witness :
    send c2State 5 [9] = send c2State 77 [9]
    ∧ send c2State 5 [9]
        = (true, [Effect.publishAsync c2State.respTopic [9] c2State.config.qos false]) := by
  have h := send_ignores_peer c2State 5 77 [9]
  exact ⟨h.1, h.2.2 c2Client rfl rfl⟩

/-- C10: with both client references null — before `begin` created a client
or `attachTo` supplied one — `connected()` is false and every `send`,
`broadcast`, `publish` and `subscribe` returns false with no publish or
subscribe performed. -/
theorem no_client_all_fail (s : MqttTransportState) (peer : Nat)
    (data payload : List Nat) (topic : List Char) (qos : Nat) (retain : Bool)
    (ha : s.asyncClient = none) (hp : s.pubSubClient = none) :
    connected s = false
    ∧ send s peer data = (false, [])
    ∧ broadcast s data = (false, [])
    ∧ publish s topic payload qos retain = (false, [])
    ∧ subscribe s topic qos = (false, []) := by
  unfold connected send broadcast publish subscribe mqttPublish
  rw [ha, hp]
  simp

/-- C10 witness: a freshly constructed integration-mode transport has no
clients, and all channel operations fail inertly. -/
theorem no_client_all_fail_witness :
    connected (mkIntegration none) = false
    ∧ send (mkIntegration none) 3 [1] = (false, [])
    ∧ broadcast (mkIntegration none) [1] = (false, [])
    ∧ publish (mkIntegration none) "t".toList [1] 1 true = (false, [])
    ∧ subscribe (mkIntegration none) "t".toList 1 = (false, []) :=
  no_client_all_fail (mkIntegration none) 3 [1] [1] "t".toList 1 true rfl rfl

end EspmoleMqtt
